import Mathlib

/-!
# Verification of the client websocket transport (`client/comms/wsconn.go`)

A shallow embedding of the transport's data model and operations, with
theorems settling the spec's claims about it.  Durations are modelled in
seconds as naturals; Go `error` values are modelled explicitly; the
concurrent parts (request registry life cycle, shutdown watcher) are
modelled as small-step transition systems whose atomic steps are the
critical sections of the Go code (each `reqMtx`-protected block is one
step).
-/

namespace WsConn

/-- `ConnectionStatus` from wsconn.go: `Disconnected | Connected | InvalidCert`
(iota constants 0, 1, 2). -/
inductive ConnectionStatus where
  | Disconnected
  | Connected
  | InvalidCert
deriving DecidableEq, Repr

/-- `msgjson.Message.Type` discriminator as used by wsconn.go, which only
compares against `msgjson.Request` and `msgjson.Response`; all other
values are grouped by the catch-all constructors. -/
inductive MsgType where
  | Request
  | Response
  | Notification
  | Other
deriving DecidableEq, Repr

/-- The slice of `msgjson.Message` the transport inspects: the type
discriminator, the 64-bit ID, and the route.  `marshalResult` abstracts
`json.Marshal(msg)`: `some b` when marshalling succeeds with bytes `b`,
`none` when it fails (wsconn.go treats marshalling as an opaque fallible
step and never inspects the bytes). -/
structure Message where
  type : MsgType
  ID : Nat
  route : String
  marshalResult : Option (List Nat)
deriving DecidableEq, Repr

/-! ## Reconnect backoff (`keepAlive`, wsconn.go lines 462-500)

`reconnectInterval = 5 * time.Second`, `maxReconnectInterval = time.Minute`.
The loop keeps a local `rcInt` initialised to `reconnectInterval`; on a
failed `connect` it schedules the next trigger after `rcInt` and then does
`if rcInt < maxReconnectInterval { rcInt += reconnectInterval }`; on a
successful `connect` it resets `rcInt = reconnectInterval`. -/

/-- `reconnectInterval` in seconds. -/
def reconnectInterval : Nat := 5

/-- `maxReconnectInterval` in seconds. -/
def maxReconnectInterval : Nat := 60

/-- One iteration of `keepAlive`'s backoff state: given the current `rcInt`
and whether the reconnect attempt failed (`true` = `conn.connect` returned
an error), return the delay scheduled before the next trigger (`none` on
success: no timer is scheduled) and the new `rcInt`. -/
def keepAliveStep (rcInt : Nat) (failed : Bool) : Option Nat × Nat :=
  if failed then
    (some rcInt, if rcInt < maxReconnectInterval then rcInt + reconnectInterval else rcInt)
  else
    (none, reconnectInterval)

/-- Run `keepAlive` over a list of attempt outcomes (`true` = failure),
collecting the scheduled inter-attempt delays, starting from backoff state
`rcInt`. -/
def keepAliveDelays (rcInt : Nat) : List Bool → List Nat
  | [] => []
  | failed :: rest =>
    match keepAliveStep rcInt failed with
    | (some d, rcInt') => d :: keepAliveDelays rcInt' rest
    | (none, rcInt') => keepAliveDelays rcInt' rest

/-! ## Certificate-error classification (wsconn.go lines 68-88, 256-267) -/

/-- The shape of a Go `error` as inspected by `isErrorInvalidCert`: the
three `errors.As` probes against typed x509 errors, plus the error text
that `invalidCertRegexp` is matched against (modelled as a character
list so substring search is decidable). -/
structure GoError where
  isCertificateInvalidError : Bool
  isUnknownAuthorityError : Bool
  isHostnameError : Bool
  text : List Char
deriving DecidableEq, Repr

/-- Semantics of `invalidCertRegexp.MatchString` for the pattern
`.*(unknown authority|not standards compliant|not trusted)`:
`MatchString` is an unanchored search, and the leading `.*` is
redundant under it, so the match succeeds exactly when the text contains
one of the three alternatives as a substring. -/
def invalidCertRegexpMatch (t : List Char) : Prop :=
  "unknown authority".toList <:+: t ∨
  "not standards compliant".toList <:+: t ∨
  "not trusted".toList <:+: t

instance (t : List Char) : Decidable (invalidCertRegexpMatch t) := by
  unfold invalidCertRegexpMatch
  infer_instance

/-- `isErrorInvalidCert` (wsconn.go lines 74-80). -/
def isErrorInvalidCert (err : GoError) : Bool :=
  err.isCertificateInvalidError || err.isHostnameError ||
    err.isUnknownAuthorityError || decide (invalidCertRegexpMatch err.text)

/-- The error returned by `connect` on a dial failure:
`certRequired`/`invalidCert` wrap the original error text via
`dex.NewError(ErrCertRequired, err.Error())` /
`dex.NewError(ErrInvalidCert, err.Error())`; `other` passes the dial
error through unchanged. -/
inductive ConnectError where
  | certRequired (detail : List Char)
  | invalidCert (detail : List Char)
  | other (err : GoError)
deriving DecidableEq, Repr

/-- The dial-failure branch of `connect` (wsconn.go lines 257-267): the
status it stores and the error it returns, as a function of the
configured cert PEM (`cfg.Cert`) and the dial error. -/
def connectDialError (cert : List Nat) (err : GoError) : ConnectionStatus × ConnectError :=
  if isErrorInvalidCert err then
    if cert.length = 0 then
      (ConnectionStatus.InvalidCert, ConnectError.certRequired err.text)
    else
      (ConnectionStatus.InvalidCert, ConnectError.invalidCert err.text)
  else
    (ConnectionStatus.Disconnected, ConnectError.other err)

/-! ## `Connect` (wsconn.go lines 510-568)

`Connect` derives an internal context, dials once synchronously, and then
either tears down (hard failure), or schedules a retry in 5 s (soft
failure), or proceeds; in the two non-hard cases it starts `keepAlive`
(unless auto-reconnect is disabled) and the shutdown watcher and returns
`(&conn.wg, nil)`. -/

/-- The externally visible effects of one `Connect` call. `result = none`
models the `(&conn.wg, nil)` return; `result = some e` models `(nil, e)`. -/
structure ConnectOutcome where
  cancelledInternalCtx : Bool
  closedReadCh : Bool
  scheduledTriggerSec : Option Nat
  keepAliveStarted : Bool
  watcherStarted : Bool
  result : Option ConnectError
deriving DecidableEq, Repr

/-- The test `conn.cfg.DisableAutoReconnect || errors.Is(err, ErrInvalidCert) ||
errors.Is(err, ErrCertRequired)` (wsconn.go line 518).  `connect` produces
`ErrInvalidCert`/`ErrCertRequired` only via `dex.NewError`, which wraps the
sentinel, so `errors.Is` holds exactly for those two constructors; a raw
dial error never wraps either sentinel. -/
def connectHardFailure (disableAutoReconnect : Bool) (e : ConnectError) : Bool :=
  disableAutoReconnect ||
    (match e with
     | ConnectError.invalidCert _ => true
     | ConnectError.certRequired _ => true
     | ConnectError.other _ => false)

/-- `Connect` (wsconn.go lines 510-568) as a function of the config flag and
the result of the initial `conn.connect` dial (`none` = success). -/
def ConnectModel (disableAutoReconnect : Bool) (dialResult : Option ConnectError) :
    ConnectOutcome :=
  match dialResult with
  | none =>
    { cancelledInternalCtx := false, closedReadCh := false, scheduledTriggerSec := none
      keepAliveStarted := !disableAutoReconnect, watcherStarted := true, result := none }
  | some e =>
    if connectHardFailure disableAutoReconnect e then
      -- cancel, wg.Wait, close(readCh), return nil, err
      { cancelledInternalCtx := true, closedReadCh := true, scheduledTriggerSec := none
        keepAliveStarted := false, watcherStarted := false, result := some e }
    else
      -- time.AfterFunc(5*time.Second, post trigger), then fall through
      { cancelledInternalCtx := false, closedReadCh := false, scheduledTriggerSec := some 5
        keepAliveStarted := !disableAutoReconnect, watcherStarted := true, result := none }

/-! ## The request registry and the sender (wsconn.go lines 576-726)

The registry `respHandlers` is a Go map from request ID to a
`responseHandler`; the callback and abort closures are modelled by opaque
labels. -/

/-- `responseHandler` (wsconn.go lines 106-110), with the closures `f` and
`abort` as opaque labels; the expiry timer's life cycle is modelled
separately in the per-request machine below. -/
structure HandlerEntry where
  fLabel : Nat
  abortLabel : Nat
deriving DecidableEq, Repr

/-- The `respHandlers` map. -/
abbrev Registry := List (Nat × HandlerEntry)

/-- Go map assignment `conn.respHandlers[id] = h`. -/
def regSet (reg : Registry) (id : Nat) (h : HandlerEntry) : Registry :=
  (id, h) :: List.filter (fun p => p.1 != id) reg

/-- Go map deletion `delete(conn.respHandlers, id)`. -/
def regDelete (reg : Registry) (id : Nat) : Registry :=
  List.filter (fun p => p.1 != id) reg

/-- Go map lookup `conn.respHandlers[id]`. -/
def regLookup (reg : Registry) (id : Nat) : Option HandlerEntry :=
  List.lookup id reg

/-- `respHandler` (wsconn.go lines 717-726): remove and return the entry for
`id` if present (stopping its timer), else `nil`; one atomic step under
`reqMtx`. -/
def respHandlerTake (reg : Registry) (id : Nat) : Option HandlerEntry × Registry :=
  match regLookup reg id with
  | some cb => (some cb, regDelete reg id)
  | none => (none, reg)

/-- The errors the sender surfaces synchronously. -/
inductive SendError where
  | brokenConnection
  | marshalError
  | writeError
  | notARequest (t : MsgType)
deriving DecidableEq, Repr

/-- The state the sender reads and writes: the atomic status, the frames so
far written to the socket, the registry, and an environment bit saying
whether the next socket write fails. -/
structure SenderState where
  status : ConnectionStatus
  writeFails : Bool
  written : List (List Nat)
  respHandlers : Registry
deriving DecidableEq, Repr

/-- `IsDown` (wsconn.go lines 230-232). -/
def IsDown (s : SenderState) : Bool :=
  s.status != ConnectionStatus.Connected

/-- `SendRaw` (wsconn.go lines 597-616): refuse when down; otherwise set the
write deadline and write one text frame, surfacing a write error (in which
case no complete frame is recorded). -/
def SendRaw (s : SenderState) (b : List Nat) : SenderState × Option SendError :=
  if IsDown s then (s, some SendError.brokenConnection)
  else if s.writeFails then (s, some SendError.writeError)
  else ({ s with written := s.written ++ [b] }, none)

/-- `Send` (wsconn.go lines 581-594): refuse when down, marshal first (a
marshal failure emits nothing), then `SendRaw`. -/
def Send (s : SenderState) (msg : Message) : SenderState × Option SendError :=
  if IsDown s then (s, some SendError.brokenConnection)
  else
    match msg.marshalResult with
    | none => (s, some SendError.marshalError)
    | some b => SendRaw s b

/-- `logReq` (wsconn.go lines 697-713): store the response handler in the
map (one atomic step under `reqMtx`); the expiry timer armed here is
modelled in the per-request machine below. -/
def logReq (s : SenderState) (id : Nat) (f abort : Nat) : SenderState :=
  { s with respHandlers := regSet s.respHandlers id ⟨f, abort⟩ }

/-- `RequestRawWithTimeout` (wsconn.go lines 673-685): register the handler,
send, and on a send error take the handler back out of the registry. -/
def RequestRawWithTimeout (s : SenderState) (msgID : Nat) (rawMsg : List Nat)
    (f abort : Nat) : SenderState × Option SendError :=
  let s1 := logReq s msgID f abort
  match SendRaw s1 rawMsg with
  | (s2, some e) =>
    ({ s2 with respHandlers := (respHandlerTake s2.respHandlers msgID).2 }, some e)
  | (s2, none) => (s2, none)

/-- `RequestWithTimeout` (wsconn.go lines 656-671): reject non-Request
messages, marshal, then `RequestRawWithTimeout`. -/
def RequestWithTimeout (s : SenderState) (msg : Message) (f abort : Nat) :
    SenderState × Option SendError :=
  if msg.type != MsgType.Request then (s, some (SendError.notARequest msg.type))
  else
    match msg.marshalResult with
    | none => (s, some SendError.marshalError)
    | some raw => RequestRawWithTimeout s msg.ID raw f abort

/-! ## Response dispatch in the read loop (wsconn.go lines 438-456) -/

/-- What one read-loop iteration does with a decoded message. -/
inductive ReadAction where
  | runCallback (h : HandlerEntry) (m : Message)
  | deliver (m : Message)
  | dropUnmatched (m : Message)
deriving DecidableEq, Repr

/-- The dispatch step of `read` (wsconn.go lines 438-456): a Response-type
message is matched against the registry via `respHandler` — running the
handler's `f` with the message when found, logging and dropping it when
not — and any other message goes to the inbound channel. -/
def readDispatch (reg : Registry) (msg : Message) : Registry × ReadAction :=
  if msg.type = MsgType.Response then
    match respHandlerTake reg msg.ID with
    | (some h, reg') => (reg', ReadAction.runCallback h msg)
    | (none, reg') => (reg', ReadAction.dropUnmatched msg)
  else (reg, ReadAction.deliver msg)

/-! ## Read-error classification and the reconnect trigger
(wsconn.go lines 337-377)

`handleReadError` classifies the read error and in every branch calls the
local `reconnect` closure, which sets the status to Disconnected and, when
auto-reconnect is enabled, performs `conn.reconnectCh <- struct{}{}` — a
plain send on the capacity-1 buffered channel created in `NewWsConn`
(line 214). -/

/-- The classifier's branches over the read error (wsconn.go lines
345-377). -/
inductive ReadErrorKind where
  | netTimeout
  | closeGoingAway
  | closeNormalClosure
  | closeSentText
  | opReadClosedConn
  | otherError
deriving DecidableEq, Repr

/-- The one-step outcome of a Go send `ch <- v` on a buffered channel with
capacity 1, as a function of whether the buffer already holds a value:
with a free slot the send completes at once; with a full buffer the
sending goroutine waits until a receiver frees the slot. -/
inductive ChanSendOutcome where
  | delivered
  | blocked
deriving DecidableEq, Repr

/-- Go semantics of a send on a capacity-1 buffered channel. -/
def chanSend1 (bufferFull : Bool) : ChanSendOutcome :=
  if bufferFull then ChanSendOutcome.blocked else ChanSendOutcome.delivered

/-- Effects of `handleReadError`: the status it stores and, when
auto-reconnect is enabled, the outcome of the trigger-channel send
(`none` when `DisableAutoReconnect` suppresses the send). -/
structure ReadErrorEffect where
  status : ConnectionStatus
  sendOutcome : Option ChanSendOutcome
deriving DecidableEq, Repr

/-- The `reconnect` closure (wsconn.go lines 338-343). -/
def reconnectTrigger (disableAutoReconnect bufferFull : Bool) : ReadErrorEffect :=
  { status := ConnectionStatus.Disconnected
    sendOutcome := if disableAutoReconnect then none else some (chanSend1 bufferFull) }

/-- `handleReadError` (wsconn.go lines 337-377): every classifier branch —
net timeout, close 1000/1001, "close sent" text, closed-network-connection
read op error, and the catch-all — invokes `reconnect`. -/
def handleReadError (disableAutoReconnect bufferFull : Bool) (k : ReadErrorKind) :
    ReadErrorEffect :=
  match k with
  | ReadErrorKind.netTimeout => reconnectTrigger disableAutoReconnect bufferFull
  | ReadErrorKind.closeGoingAway => reconnectTrigger disableAutoReconnect bufferFull
  | ReadErrorKind.closeNormalClosure => reconnectTrigger disableAutoReconnect bufferFull
  | ReadErrorKind.closeSentText => reconnectTrigger disableAutoReconnect bufferFull
  | ReadErrorKind.opReadClosedConn => reconnectTrigger disableAutoReconnect bufferFull
  | ReadErrorKind.otherError => reconnectTrigger disableAutoReconnect bufferFull

/-! ## Status / socket transition system (claims about reachable states)

The writes to `conn.ws` and `conn.connectionStatus` in wsconn.go are:
`conn.ws = ws` in `connect` (line 311, never nil); status `InvalidCert`
(line 259) and `Disconnected` (line 265) on dial failure; `Connected`
(line 314) immediately after installing the socket; `Disconnected` in
`handleReadError` (line 339) and in the shutdown watcher (line 545).
The zero value of the struct gives the initial status `Disconnected`
(iota 0) and a nil socket. -/

/-- The status/socket slice of `wsConn` state. `pendingConnected` records
that a `connect` call has executed line 311 (socket installed) but not yet
line 314 (status set); concurrent status writes by other goroutines may
interleave between the two. -/
structure StatusState where
  status : ConnectionStatus
  ws : Option Nat
  pendingConnected : Bool
deriving DecidableEq, Repr

/-- The zero-value state `NewWsConn` returns (wsconn.go lines 208-218): no
socket, status `Disconnected`. -/
def initialStatusState : StatusState :=
  { status := ConnectionStatus.Disconnected, ws := none, pendingConnected := false }

/-- Atomic writes to the status/socket slice of the state. -/
inductive StatusStep : StatusState → StatusState → Prop where
  /-- `conn.ws = ws` under `wsMtx` (wsconn.go line 311): always a fresh
  non-nil socket. -/
  | installWs (s : StatusState) (sock : Nat) :
      StatusStep s { s with ws := some sock, pendingConnected := true }
  /-- `conn.setConnectionStatus(Connected)` (line 314): runs only in
  `connect`, directly after the socket install of the same call. -/
  | setConnected (s : StatusState) (h : s.pendingConnected = true) :
      StatusStep s { s with status := ConnectionStatus.Connected, pendingConnected := false }
  /-- `setConnectionStatus(Disconnected)`: dial failure (line 265),
  `handleReadError` (line 339), shutdown watcher (line 545). -/
  | setDisconnected (s : StatusState) :
      StatusStep s { s with status := ConnectionStatus.Disconnected }
  /-- `setConnectionStatus(InvalidCert)` on an invalid-cert dial failure
  (line 259). -/
  | setInvalidCert (s : StatusState) :
      StatusStep s { s with status := ConnectionStatus.InvalidCert }

/-- States reachable from the freshly constructed connection. -/
inductive StatusReachable : StatusState → Prop where
  | init : StatusReachable initialStatusState
  | step {s s' : StatusState} (hr : StatusReachable s) (hs : StatusStep s s') :
      StatusReachable s'

/-- `SendRaw` dereferences `conn.ws` (lines 604, 610) only after the
`IsDown` guard (line 598) passes, i.e. only when the status read was
`Connected`. -/
def sendRawAccessesSocket (s : StatusState) : Bool :=
  s.status == ConnectionStatus.Connected

/-! ## Shutdown lifecycle trace (wsconn.go lines 510-568)

`close(conn.readCh)` appears at exactly two sites: the hard-failure branch
of `Connect` (line 521, after `conn.cancel()`), and the end of the
shutdown watcher (line 564).  The watcher is spawned only when the
hard-failure branch did not return, runs once `ctxInternal` is cancelled,
and then: sets status Disconnected, closes the socket when present,
drains the registry (per entry: delete, stop timer, run abort), and
closes the channel. -/

/-- Observable events of the connection teardown. -/
inductive LifeEvent where
  | ctxCancelled
  | statusSet (st : ConnectionStatus)
  | socketClosed
  | handlerRemoved (id : Nat)
  | timerStopped (id : Nat)
  | abortRun (id : Nat)
  | readChClosed
deriving DecidableEq, Repr

/-- The registry drain in the watcher (wsconn.go lines 554-562): for each
pending entry, `delete(conn.respHandlers, id)`, `h.expiration.Stop()`,
`h.abort()`, all under `reqMtx`; the list order stands for the map's
iteration order. -/
def drainTrace : Registry → List LifeEvent
  | [] => []
  | (id, _) :: rest =>
    LifeEvent.handlerRemoved id :: LifeEvent.timerStopped id ::
      LifeEvent.abortRun id :: drainTrace rest

/-- The shutdown watcher (wsconn.go lines 541-565): it runs after
`ctxInternal.Done()` fires, with `reg` the handlers pending at that
point and `ws` the socket reference. -/
def watcherTrace (ws : Option Nat) (reg : Registry) : List LifeEvent :=
  LifeEvent.ctxCancelled :: LifeEvent.statusSet ConnectionStatus.Disconnected ::
    ((if ws.isSome then [LifeEvent.socketClosed] else []) ++
      drainTrace reg ++ [LifeEvent.readChClosed])

/-- The teardown events of one connection lifecycle: the hard-failure
branch of `Connect` cancels and closes the channel itself (lines 519-522)
without spawning the watcher; every other path spawns the watcher exactly
once (lines 541-565), which emits its trace when the internal context is
eventually cancelled. -/
def lifecycleTrace (disableAutoReconnect : Bool) (dialResult : Option ConnectError)
    (ws : Option Nat) (reg : Registry) : List LifeEvent :=
  match dialResult with
  | some e =>
    if connectHardFailure disableAutoReconnect e then
      [LifeEvent.ctxCancelled, LifeEvent.readChClosed]
    else
      watcherTrace ws reg
  | none => watcherTrace ws reg

/-- Whether the lifecycle took the hard-failure branch of `Connect`
(line 518): only then is the channel closed by `Connect` itself rather
than by the watcher. -/
def lifecycleHard (disableAutoReconnect : Bool) (dialResult : Option ConnectError) : Bool :=
  match dialResult with
  | some e => connectHardFailure disableAutoReconnect e
  | none => false

/-! ## Per-request life cycle (wsconn.go lines 656-726, 541-565)

A small-step machine for one request passed to
`RequestRawWithTimeout`, with id fixed.  The atomic steps are the
`reqMtx` critical sections of the Go code (`logReq`, `expire` inside
`doExpire`, `respHandler`, the watcher's drain) plus the requester's
`SendRaw` call returning, the timer firing, and a matching response
arriving at the read loop.  The timer machinery follows `time.AfterFunc`:
`Stop` prevents the function from running only when it has not fired yet;
`doExpire` itself re-checks map membership under `reqMtx` (lines
700-707). -/

/-- State of the request's `time.AfterFunc` expiry timer. -/
inductive TimerState where
  /-- no timer exists yet (before `logReq`) -/
  | noTimer
  /-- armed and counting down -/
  | armed
  /-- `Stop()` succeeded before fire: `doExpire` will never run -/
  | stopped
  /-- the timer fired; `doExpire` has not run yet -/
  | firedPending
  /-- `doExpire` has run -/
  | firedDone
deriving DecidableEq, Repr

/-- Program counter of the goroutine executing `RequestRawWithTimeout`. -/
inductive ReqPC where
  /-- about to call `logReq` (line 676) -/
  | beforeLog
  /-- handler registered, `SendRaw` (line 677) not yet returned -/
  | beforeSend
  /-- `SendRaw` returned an error; about to run the `respHandler` cleanup
  (line 682) -/
  | cleanup
  /-- returned to the caller -/
  | done
deriving DecidableEq, Repr

/-- Caller-visible invocations for this request: the response callback
`f`, the caller's expire func run by the expiry timer, and the same
closure run as `abort` by the shutdown drain. -/
inductive ReqEvent where
  | callbackRun
  | expireRun
  | abortRun
deriving DecidableEq, Repr

/-- The interleaving state of one request. -/
structure ReqMachine where
  pc : ReqPC
  /-- the request's id is in `respHandlers` -/
  registered : Bool
  timer : TimerState
  /-- the shutdown watcher's drain has executed -/
  shutdownDrained : Bool
  events : List ReqEvent
  /-- `some r` once `RequestRawWithTimeout` returned `r` -/
  result : Option (Option SendError)
deriving DecidableEq, Repr

/-- Fresh state: the requester is about to run, nothing registered. -/
def reqInit : ReqMachine :=
  { pc := ReqPC.beforeLog, registered := false, timer := TimerState.noTimer
    shutdownDrained := false, events := [], result := none }

/-- `Stop()` on the timer (lines 560, 722): prevents the fire only when
still armed. -/
def stopTimer (t : TimerState) : TimerState :=
  if t = TimerState.armed then TimerState.stopped else t

/-- The schedulable atomic actions. -/
inductive ReqAction where
  /-- `logReq` (line 676): register the handler, arm the timer -/
  | doLogReq
  /-- `SendRaw` (line 677) returns nil -/
  | sendOk
  /-- `SendRaw` (line 677) returns an error -/
  | sendErr (e : SendError)
  /-- the `respHandler` cleanup after a send error (line 682) -/
  | doCleanup (e : SendError)
  /-- the `time.AfterFunc` timer fires -/
  | timerFire
  /-- `doExpire` (lines 700-707): remove the entry and, when it was still
  present, run the caller's expire func -/
  | doExpire
  /-- the read loop takes the handler for a matching response
  (lines 440-453): remove, stop timer, run `f` -/
  | responseArrive
  /-- the shutdown watcher's drain (lines 554-562): remove, stop timer,
  run `abort` -/
  | shutdownDrain
deriving DecidableEq, Repr

/-- One atomic step; `none` when the action is not enabled in `s`. -/
def reqStep (s : ReqMachine) (a : ReqAction) : Option ReqMachine :=
  match a with
  | ReqAction.doLogReq =>
    if s.pc = ReqPC.beforeLog then
      some { s with pc := ReqPC.beforeSend, registered := true, timer := TimerState.armed }
    else none
  | ReqAction.sendOk =>
    if s.pc = ReqPC.beforeSend then
      some { s with pc := ReqPC.done, result := some none }
    else none
  | ReqAction.sendErr _ =>
    if s.pc = ReqPC.beforeSend then
      some { s with pc := ReqPC.cleanup }
    else none
  | ReqAction.doCleanup e =>
    if s.pc = ReqPC.cleanup then
      some { s with pc := ReqPC.done, registered := false,
                    timer := if s.registered then stopTimer s.timer else s.timer,
                    result := some (some e) }
    else none
  | ReqAction.timerFire =>
    if s.timer = TimerState.armed then
      some { s with timer := TimerState.firedPending }
    else none
  | ReqAction.doExpire =>
    if s.timer = TimerState.firedPending then
      some { s with timer := TimerState.firedDone, registered := false,
                    events := if s.registered then s.events ++ [ReqEvent.expireRun] else s.events }
    else none
  | ReqAction.responseArrive =>
    if s.registered then
      some { s with registered := false, timer := stopTimer s.timer,
                    events := s.events ++ [ReqEvent.callbackRun] }
    else none
  | ReqAction.shutdownDrain =>
    if s.shutdownDrained then none
    else
      some { s with shutdownDrained := true, registered := false,
                    timer := if s.registered then stopTimer s.timer else s.timer,
                    events := if s.registered then s.events ++ [ReqEvent.abortRun] else s.events }

/-- Run a schedule of atomic actions from a state. -/
def runReq (s : ReqMachine) : List ReqAction → Option ReqMachine
  | [] => some s
  | a :: rest =>
    match reqStep s a with
    | some s' => runReq s' rest
    | none => none

/-! ## Theorems -/

/-- The delays produced by a run of consecutive reconnect failures, for any
starting backoff value of the form `min (5*j) 60` with `j ≥ 1`. -/
theorem keepAliveDelays_replicate_failures (n : Nat) :
    ∀ j : Nat, 1 ≤ j →
      keepAliveDelays (min (5 * j) 60) (List.replicate n true) =
        (List.range n).map (fun k => min (5 * (j + k)) 60) := by
  induction n with
  | zero =>
    intro j _
    simp [keepAliveDelays]
  | succ n ih =>
    intro j hj
    have key : (if min (5 * j) 60 < maxReconnectInterval
        then min (5 * j) 60 + reconnectInterval else min (5 * j) 60) = min (5 * (j + 1)) 60 := by
      simp only [maxReconnectInterval, reconnectInterval]
      split <;> omega
    have hfun : (fun k => min (5 * (j + 1 + k)) 60) = (fun k => min (5 * (j + (k + 1))) 60) := by
      funext k
      have : j + 1 + k = j + (k + 1) := by omega
      rw [this]
    rw [List.replicate_succ]
    simp only [keepAliveDelays, keepAliveStep, if_true, key]
    rw [ih (j + 1) (by omega), List.range_succ_eq_map, List.map_cons, List.map_map]
    simp [Function.comp_def, hfun]

/-- C3: in `keepAlive`, a run of N consecutive failed reconnect attempts
produces inter-attempt delays 5 s, 10 s, 15 s, …, growing by 5 s per
failure and capped at 60 s (the k-th delay, 1-indexed, is
`min (5*k) 60`); and after any successful reconnect the backoff is reset,
so the next failure's delay is 5 s again (with the stored interval moving
to 10 s). -/
theorem C3_reconnect_backoff_schedule :
    (∀ n : Nat,
      keepAliveDelays reconnectInterval (List.replicate n true) =
        (List.range n).map (fun k => min (reconnectInterval * (k + 1)) maxReconnectInterval)) ∧
    (∀ (rcInt : Nat) (rest : List Bool),
      keepAliveDelays rcInt (false :: true :: rest) =
        reconnectInterval ::
          keepAliveDelays (reconnectInterval + reconnectInterval) rest) := by
  constructor
  · intro n
    have h := keepAliveDelays_replicate_failures n 1 le_rfl
    have hfun : (fun k => min (5 * (1 + k)) 60) =
        (fun k => min (reconnectInterval * (k + 1)) maxReconnectInterval) := by
      funext k
      simp only [reconnectInterval, maxReconnectInterval]
      have : 1 + k = k + 1 := by omega
      rw [this]
    simpa [reconnectInterval, hfun] using h
  · intro rcInt rest
    simp [keepAliveDelays, keepAliveStep, reconnectInterval, maxReconnectInterval]

/-- C4: a dial error is classified invalid-certificate iff it is one of the
three typed x509 errors or its text matches
`(unknown authority|not standards compliant|not trusted)`; in that case
`connect` stores status `InvalidCert` and returns `ErrCertRequired`-based
error when `cfg.Cert` is empty and `ErrInvalidCert`-based otherwise, and
for any other dial error it stores `Disconnected` and returns the error
unchanged. -/
theorem C4_invalid_cert_classification (cert : List Nat) (err : GoError) :
    (isErrorInvalidCert err = true ↔
      (err.isCertificateInvalidError = true ∨ err.isUnknownAuthorityError = true ∨
        err.isHostnameError = true ∨ invalidCertRegexpMatch err.text)) ∧
    (isErrorInvalidCert err = true →
      connectDialError cert err =
        (ConnectionStatus.InvalidCert,
          if cert.length = 0 then ConnectError.certRequired err.text
          else ConnectError.invalidCert err.text)) ∧
    (isErrorInvalidCert err = false →
      connectDialError cert err = (ConnectionStatus.Disconnected, ConnectError.other err)) := by
  refine ⟨?_, ?_, ?_⟩
  · simp only [isErrorInvalidCert, Bool.or_eq_true, decide_eq_true_eq]
    tauto
  · intro h
    simp only [connectDialError, h, if_true]
    split <;> simp
  · intro h
    simp [connectDialError, h]

/-- Witness for C4 at concrete inputs: an untyped unknown-authority error
with no pinned cert yields `InvalidCert` status and the
certificate-required error; a plain refused-connection error yields
`Disconnected` and passes through. -/
theorem C4_invalid_cert_classification_witness :
    connectDialError []
        ⟨false, false, false, "x509: certificate signed by unknown authority".toList⟩ =
      (ConnectionStatus.InvalidCert,
        ConnectError.certRequired "x509: certificate signed by unknown authority".toList) ∧
    connectDialError [1]
        ⟨false, false, false, "dial tcp 127.0.0.1:7232: connection refused".toList⟩ =
      (ConnectionStatus.Disconnected,
        ConnectError.other ⟨false, false, false,
          "dial tcp 127.0.0.1:7232: connection refused".toList⟩) := by
  constructor
  · exact (C4_invalid_cert_classification []
      ⟨false, false, false, "x509: certificate signed by unknown authority".toList⟩).2.1
      (by decide)
  · exact (C4_invalid_cert_classification [1]
      ⟨false, false, false, "dial tcp 127.0.0.1:7232: connection refused".toList⟩).2.2
      (by decide)

/-- C2: when the initial dial of `Connect` fails, a hard failure (the error
is invalid-cert or cert-required class, or auto-reconnect is disabled)
cancels the internal context, closes the inbound channel, and returns
`(nil, err)`; any other failure with auto-reconnect enabled schedules a
reconnect trigger 5 s later, starts `keepAlive` and the shutdown watcher,
and returns a non-nil wait group with a nil error. -/
theorem C2_connect_initial_dial_failure (disable : Bool) (e : ConnectError) :
    (connectHardFailure disable e = true ↔
      (disable = true ∨ (∃ d, e = ConnectError.invalidCert d) ∨
        (∃ d, e = ConnectError.certRequired d))) ∧
    (connectHardFailure disable e = true →
      ConnectModel disable (some e) =
        { cancelledInternalCtx := true, closedReadCh := true, scheduledTriggerSec := none
          keepAliveStarted := false, watcherStarted := false, result := some e }) ∧
    (connectHardFailure disable e = false →
      ConnectModel disable (some e) =
        { cancelledInternalCtx := false, closedReadCh := false, scheduledTriggerSec := some 5
          keepAliveStarted := true, watcherStarted := true, result := none }) := by
  refine ⟨?_, ?_, ?_⟩
  · cases disable <;> cases e <;> simp [connectHardFailure]
  · intro h
    simp [ConnectModel, h]
  · intro h
    have hd : disable = false := by
      cases disable
      · rfl
      · simp [connectHardFailure] at h
    subst hd
    simp [ConnectModel, h]

/-- Witness for C2 at concrete inputs: a cert-required dial failure is hard;
a generic dial failure with auto-reconnect enabled is soft. -/
theorem C2_connect_initial_dial_failure_witness :
    ConnectModel false (some (ConnectError.certRequired "u".toList)) =
      { cancelledInternalCtx := true, closedReadCh := true, scheduledTriggerSec := none
        keepAliveStarted := false, watcherStarted := false
        result := some (ConnectError.certRequired "u".toList) } ∧
    ConnectModel false (some (ConnectError.other ⟨false, false, false, "refused".toList⟩)) =
      { cancelledInternalCtx := false, closedReadCh := false, scheduledTriggerSec := some 5
        keepAliveStarted := true, watcherStarted := true, result := none } := by
  constructor
  · exact (C2_connect_initial_dial_failure false
      (ConnectError.certRequired "u".toList)).2.1 (by decide)
  · exact (C2_connect_initial_dial_failure false
      (ConnectError.other ⟨false, false, false, "refused".toList⟩)).2.2 (by decide)

/-- C9: for every message whose type is not Request, `RequestWithTimeout`
returns a non-nil error immediately — before marshalling, before
registering a response handler, and before writing to the socket — and the
whole sender state (registry, socket frames, status) is unchanged. -/
theorem C9_non_request_rejected_unchanged (s : SenderState) (msg : Message)
    (f abort : Nat) (h : msg.type ≠ MsgType.Request) :
    RequestWithTimeout s msg f abort = (s, some (SendError.notARequest msg.type)) := by
  simp [RequestWithTimeout, bne_iff_ne, h]

/-- Witness for C9: a Notification-type message is rejected with the state
untouched. -/
theorem C9_non_request_rejected_unchanged_witness :
    RequestWithTimeout
        { status := ConnectionStatus.Connected, writeFails := false
          written := [], respHandlers := [] }
        { type := MsgType.Notification, ID := 3, route := "notify", marshalResult := some [1] }
        0 0 =
      ({ status := ConnectionStatus.Connected, writeFails := false
         written := [], respHandlers := [] },
        some (SendError.notARequest MsgType.Notification)) :=
  C9_non_request_rejected_unchanged _ _ 0 0 (by decide)

/-- C8: when the outbound message fails to marshal to JSON, `Send` returns
an error with the state (in particular the socket frames) unchanged —
the marshal error itself whenever the connection is not down — and
`RequestWithTimeout` on a Request-type message returns the marshal error
with no frame written and no response handler registered. -/
theorem C8_marshal_failure_no_effects (s : SenderState) (msg : Message)
    (f abort : Nat) (h : msg.marshalResult = none) :
    (Send s msg).1 = s ∧ (∃ e, (Send s msg).2 = some e) ∧
    (IsDown s = false → Send s msg = (s, some SendError.marshalError)) ∧
    (msg.type = MsgType.Request →
      RequestWithTimeout s msg f abort = (s, some SendError.marshalError)) := by
  refine ⟨?_, ?_, ?_, ?_⟩
  · by_cases hd : IsDown s = true <;> simp [Send, h, hd]
  · by_cases hd : IsDown s = true <;> simp [Send, h, hd]
  · intro hd
    simp [Send, h, hd]
  · intro ht
    simp [RequestWithTimeout, ht, h]

/-- Witness for C8: on a connected state, an unmarshalable Request-type
message makes both `Send` and `RequestWithTimeout` fail with the marshal
error and leave the state unchanged. -/
theorem C8_marshal_failure_no_effects_witness :
    Send
        { status := ConnectionStatus.Connected, writeFails := false
          written := [], respHandlers := [] }
        { type := MsgType.Request, ID := 1, route := "r", marshalResult := none } =
      ({ status := ConnectionStatus.Connected, writeFails := false
         written := [], respHandlers := [] }, some SendError.marshalError) ∧
    RequestWithTimeout
        { status := ConnectionStatus.Connected, writeFails := false
          written := [], respHandlers := [] }
        { type := MsgType.Request, ID := 1, route := "r", marshalResult := none } 0 0 =
      ({ status := ConnectionStatus.Connected, writeFails := false
         written := [], respHandlers := [] }, some SendError.marshalError) := by
  constructor
  · exact (C8_marshal_failure_no_effects _ _ 0 0 rfl).2.2.1 (by decide)
  · exact (C8_marshal_failure_no_effects _ _ 0 0 rfl).2.2.2 rfl

/-- C7: if the read loop runs a registered response callback, the message
it passes is the very message read, it is Response-typed, and the handler
run is exactly the one registered under that message's ID (which is then
removed); a Response message matching no registered handler is dropped
with the registry unchanged and no callback run. -/
theorem C7_response_dispatch_id_fidelity (reg : Registry) (msg : Message) :
    (∀ (reg' : Registry) (h : HandlerEntry) (m : Message),
      readDispatch reg msg = (reg', ReadAction.runCallback h m) →
        m = msg ∧ msg.type = MsgType.Response ∧ regLookup reg msg.ID = some h ∧
          reg' = regDelete reg msg.ID) ∧
    (msg.type = MsgType.Response → regLookup reg msg.ID = none →
      readDispatch reg msg = (reg, ReadAction.dropUnmatched msg)) := by
  constructor
  · intro reg' h m heq
    by_cases ht : msg.type = MsgType.Response
    · cases hl : regLookup reg msg.ID with
      | some h0 =>
        have hds : readDispatch reg msg =
            (regDelete reg msg.ID, ReadAction.runCallback h0 msg) := by
          simp [readDispatch, respHandlerTake, ht, hl]
        rw [hds] at heq
        injection heq with hA hB
        injection hB with hh hm
        refine ⟨hm.symm, ht, ?_, hA.symm⟩
        first
        | rw [hl, hh]
        | rw [hh]
      | none =>
        simp [readDispatch, respHandlerTake, ht, hl] at heq
    · simp [readDispatch, ht] at heq
  · intro ht hl
    simp [readDispatch, respHandlerTake, ht, hl]

/-- Witness for C7: with one handler registered under ID 7, a Response with
ID 7 runs exactly that handler; a Response with ID 8 is dropped with the
registry unchanged. -/
theorem C7_response_dispatch_id_fidelity_witness :
    ((({ type := MsgType.Response, ID := 7, route := "", marshalResult := some [] } :
        Message)) = { type := MsgType.Response, ID := 7, route := "", marshalResult := some [] } ∧
      (MsgType.Response = MsgType.Response) ∧
      regLookup [(7, ⟨1, 2⟩)] 7 = some ⟨1, 2⟩ ∧
      regDelete [(7, ⟨1, 2⟩)] 7 = regDelete [(7, ⟨1, 2⟩)] 7) ∧
    readDispatch [(7, ⟨1, 2⟩)]
        { type := MsgType.Response, ID := 8, route := "", marshalResult := some [] } =
      ([(7, ⟨1, 2⟩)], ReadAction.dropUnmatched
        { type := MsgType.Response, ID := 8, route := "", marshalResult := some [] }) := by
  constructor
  · have := (C7_response_dispatch_id_fidelity [(7, ⟨1, 2⟩)]
      { type := MsgType.Response, ID := 7, route := "", marshalResult := some [] }).1
      (regDelete [(7, ⟨1, 2⟩)] 7) ⟨1, 2⟩
      { type := MsgType.Response, ID := 7, route := "", marshalResult := some [] }
      (by decide)
    exact ⟨this.1, this.2.1, this.2.2.1, rfl⟩
  · exact (C7_response_dispatch_id_fidelity [(7, ⟨1, 2⟩)]
      { type := MsgType.Response, ID := 8, route := "", marshalResult := some [] }).2
      rfl (by decide)

/-- C6 counterexample: with auto-reconnect enabled and a trigger already
pending in the capacity-1 channel, `handleReadError`'s triggering step does
set status Disconnected, but its channel send blocks — it is not the
claimed non-blocking coalescing delivery. -/
theorem C6_trigger_send_blocks_counterexample :
    (handleReadError false true ReadErrorKind.netTimeout).status =
      ConnectionStatus.Disconnected ∧
    (handleReadError false true ReadErrorKind.netTimeout).sendOutcome =
      some ChanSendOutcome.blocked ∧
    (handleReadError false true ReadErrorKind.netTimeout).sendOutcome ≠
      some ChanSendOutcome.delivered := by
  decide

/-- C6 (amended): whenever the read-error classifier decides to trigger a
reconnect, it sets status Disconnected and, unless auto-reconnect is
disabled, performs a plain send on the capacity-1 trigger channel: the
send completes immediately when the buffer is empty, and blocks until the
pending trigger is consumed when the buffer is full. -/
theorem C6_read_error_triggers_reconnect (disable bufferFull : Bool) (k : ReadErrorKind) :
    (handleReadError disable bufferFull k).status = ConnectionStatus.Disconnected ∧
    (disable = true → (handleReadError disable bufferFull k).sendOutcome = none) ∧
    (disable = false →
      (handleReadError disable bufferFull k).sendOutcome =
        some (if bufferFull then ChanSendOutcome.blocked else ChanSendOutcome.delivered)) := by
  cases k <;> cases disable <;> cases bufferFull <;>
    simp [handleReadError, reconnectTrigger, chanSend1]

/-- Witness for C6 (amended): an enabled, empty-buffer trigger delivers. -/
theorem C6_read_error_triggers_reconnect_witness :
    (handleReadError false false ReadErrorKind.otherError).sendOutcome =
      some ChanSendOutcome.delivered := by
  have h := (C6_read_error_triggers_reconnect false false ReadErrorKind.otherError).2.2 rfl
  simpa using h

/-- Inductive invariant for the status/socket machine: a pending
Connected-transition and the Connected status itself each imply a
non-nil socket. -/
theorem statusReachable_inv (s : StatusState) (h : StatusReachable s) :
    (s.pendingConnected = true → s.ws.isSome = true) ∧
    (s.status = ConnectionStatus.Connected → s.ws.isSome = true) := by
  induction h with
  | init => simp [initialStatusState]
  | step hr hs ih =>
    cases hs with
    | installWs sock => exact ⟨fun _ => rfl, fun _ => rfl⟩
    | setConnected hp =>
      exact ⟨fun hx => absurd hx (by simp), fun _ => ih.1 hp⟩
    | setDisconnected =>
      exact ⟨fun hx => ih.1 hx, fun hc => absurd hc (by simp)⟩
    | setInvalidCert =>
      exact ⟨fun hx => ih.1 hx, fun hc => absurd hc (by simp)⟩

/-- C10: in every reachable state of the status/socket machine, status
Connected implies the socket reference is non-nil (the initial state is
Disconnected with a nil socket, Connected is only set after a socket
install, and the socket is never reset to nil); hence whenever `SendRaw`
passes its `IsDown` guard and goes on to dereference `conn.ws`, the
reference is non-nil. -/
theorem C10_connected_implies_socket (s : StatusState) (h : StatusReachable s) :
    (s.status = ConnectionStatus.Connected → s.ws.isSome = true) ∧
    (sendRawAccessesSocket s = true → s.ws.isSome = true) := by
  have hinv := statusReachable_inv s h
  refine ⟨hinv.2, fun ha => hinv.2 ?_⟩
  simpa [sendRawAccessesSocket] using ha

/-- Witness for C10 at the concrete reachable state reached by installing
socket 0 and then setting Connected. -/
theorem C10_connected_implies_socket_witness :
    (StatusState.mk ConnectionStatus.Connected (some 0) false).ws.isSome = true := by
  have h1 : StatusReachable
      { status := ConnectionStatus.Disconnected, ws := some 0, pendingConnected := true } :=
    StatusReachable.step StatusReachable.init (StatusStep.installWs initialStatusState 0)
  have h2 : StatusReachable
      { status := ConnectionStatus.Connected, ws := some 0, pendingConnected := false } :=
    StatusReachable.step h1 (StatusStep.setConnected _ rfl)
  exact (C10_connected_implies_socket _ h2).1 rfl

/-- The drain loop never closes the inbound channel. -/
theorem drainTrace_not_readChClosed (reg : Registry) :
    LifeEvent.readChClosed ∉ drainTrace reg := by
  induction reg with
  | nil => simp [drainTrace]
  | cons p rest ih =>
    obtain ⟨id, h⟩ := p
    simp [drainTrace, ih]

/-- Every pending entry gets its removal, timer stop, and abort event in
the drain trace. -/
theorem drainTrace_mem_of_mem (id : Nat) (h : HandlerEntry) :
    ∀ reg : Registry, (id, h) ∈ reg →
      LifeEvent.handlerRemoved id ∈ drainTrace reg ∧
      LifeEvent.timerStopped id ∈ drainTrace reg ∧
      LifeEvent.abortRun id ∈ drainTrace reg := by
  intro reg
  induction reg with
  | nil =>
    intro hmem
    simp at hmem
  | cons p rest ih =>
    intro hmem
    obtain ⟨id', h'⟩ := p
    rcases List.mem_cons.mp hmem with heq | htail
    · injection heq with h1 h2
      subst h1
      simp [drainTrace]
    · have h3 := ih htail
      refine ⟨?_, ?_, ?_⟩ <;> simp [drainTrace] <;> tauto

/-- C5: in every connection lifecycle, the inbound channel is closed
exactly once, as the final teardown event, and only after the internal
context is cancelled; when the close is performed by the shutdown watcher
(every non-hard-failure lifecycle) it is additionally preceded by the
status being set Disconnected, the socket close (when a socket is
present), and — for every pending response handler — that handler's
removal, timer stop, and abort. -/
theorem C5_inbound_channel_close_ordering (disable : Bool)
    (dialResult : Option ConnectError) (ws : Option Nat) (reg : Registry) :
    ∃ pre : List LifeEvent,
      lifecycleTrace disable dialResult ws reg = pre ++ [LifeEvent.readChClosed] ∧
      LifeEvent.readChClosed ∉ pre ∧
      (lifecycleTrace disable dialResult ws reg).count LifeEvent.readChClosed = 1 ∧
      pre.head? = some LifeEvent.ctxCancelled ∧
      (lifecycleHard disable dialResult = false →
        LifeEvent.statusSet ConnectionStatus.Disconnected ∈ pre ∧
        (ws.isSome = true → LifeEvent.socketClosed ∈ pre) ∧
        ∀ id h, (id, h) ∈ reg →
          LifeEvent.handlerRemoved id ∈ pre ∧ LifeEvent.timerStopped id ∈ pre ∧
            LifeEvent.abortRun id ∈ pre) := by
  have watcher_case :
      ∃ pre : List LifeEvent,
        watcherTrace ws reg = pre ++ [LifeEvent.readChClosed] ∧
        LifeEvent.readChClosed ∉ pre ∧
        (watcherTrace ws reg).count LifeEvent.readChClosed = 1 ∧
        pre.head? = some LifeEvent.ctxCancelled ∧
        (LifeEvent.statusSet ConnectionStatus.Disconnected ∈ pre ∧
          (ws.isSome = true → LifeEvent.socketClosed ∈ pre) ∧
          ∀ id h, (id, h) ∈ reg →
            LifeEvent.handlerRemoved id ∈ pre ∧ LifeEvent.timerStopped id ∈ pre ∧
              LifeEvent.abortRun id ∈ pre) := by
    refine ⟨LifeEvent.ctxCancelled :: LifeEvent.statusSet ConnectionStatus.Disconnected ::
      ((if ws.isSome then [LifeEvent.socketClosed] else []) ++ drainTrace reg), ?_, ?_, ?_, ?_, ?_, ?_, ?_⟩
    · simp [watcherTrace, List.append_assoc]
    · cases ws <;> simp [drainTrace_not_readChClosed reg]
    · have hsplit : watcherTrace ws reg =
          (LifeEvent.ctxCancelled :: LifeEvent.statusSet ConnectionStatus.Disconnected ::
            ((if ws.isSome then [LifeEvent.socketClosed] else []) ++ drainTrace reg)) ++
            [LifeEvent.readChClosed] := by
        simp [watcherTrace, List.append_assoc]
      rw [hsplit, List.count_append]
      have h0 : (LifeEvent.ctxCancelled ::
          LifeEvent.statusSet ConnectionStatus.Disconnected ::
          ((if ws.isSome then [LifeEvent.socketClosed] else []) ++
            drainTrace reg)).count LifeEvent.readChClosed = 0 := by
        rw [List.count_eq_zero]
        cases ws <;> simp [drainTrace_not_readChClosed reg]
      rw [h0]
      simp
    · rfl
    · simp
    · intro hsome
      simp [hsome]
    · intro id h hmem
      have h3 := drainTrace_mem_of_mem id h reg hmem
      refine ⟨?_, ?_, ?_⟩ <;> simp [List.mem_append] <;> tauto
  match dialResult with
  | none =>
    obtain ⟨pre, h1, h2, h3, h4, h5⟩ := watcher_case
    exact ⟨pre, h1, h2, h3, h4, fun _ => h5⟩
  | some e =>
    by_cases hhard : connectHardFailure disable e = true
    · refine ⟨[LifeEvent.ctxCancelled], ?_, ?_, ?_, ?_, ?_⟩
      · simp [lifecycleTrace, hhard]
      · simp
      · simp [lifecycleTrace, hhard]
      · rfl
      · intro hfalse
        exact absurd hfalse (by simp [lifecycleHard, hhard])
    · have hsoft : connectHardFailure disable e = false := by
        simpa using hhard
      obtain ⟨pre, h1, h2, h3, h4, h5⟩ := watcher_case
      refine ⟨pre, ?_, h2, ?_, h4, fun _ => h5⟩
      · simpa [lifecycleTrace, hsoft] using h1
      · simpa [lifecycleTrace, hsoft] using h3

/-- Witness for C5: with one pending handler under ID 7, its abort event
appears in the lifecycle trace (before the single channel close). -/
theorem C5_inbound_channel_close_ordering_witness :
    LifeEvent.abortRun 7 ∈ lifecycleTrace false none (some 0) [(7, ⟨1, 2⟩)] := by
  obtain ⟨pre, htr, hnot, hcount, hhead, hw⟩ :=
    C5_inbound_channel_close_ordering false none (some 0) [(7, ⟨1, 2⟩)]
  have hm := ((hw rfl).2.2 7 ⟨1, 2⟩ (by simp)).2.2
  rw [htr]
  exact List.mem_append_left _ hm

/-- C1 (code-bug exhibit): the schedule in which the shutdown drain runs
between `logReq` and a failing `SendRaw` is admitted by the per-request
machine, and it ends with `RequestRawWithTimeout` returning the non-nil
broken-connection error even though the handler's abort (the caller's
onExpire closure) has already been invoked — contradicting the claim (and
the guarantee documented on `RequestWithTimeout`, wsconn.go lines
638-641) that a non-nil return means none of the three ever runs. -/
theorem C1_error_return_with_abort_already_run :
    runReq reqInit
        [ReqAction.doLogReq, ReqAction.shutdownDrain,
          ReqAction.sendErr SendError.brokenConnection,
          ReqAction.doCleanup SendError.brokenConnection] =
      some { pc := ReqPC.done, registered := false, timer := TimerState.stopped
             shutdownDrained := true, events := [ReqEvent.abortRun]
             result := some (some SendError.brokenConnection) } := by
  rfl

/-- Safety half of the exactly-one property: along every schedule of the
per-request machine, at most one of {callback, expire, abort} is ever
invoked for the request. -/
theorem runReq_at_most_one_invocation :
    ∀ (l : List ReqAction) (s s' : ReqMachine),
      runReq s l = some s' →
      ((s.pc = ReqPC.beforeLog → s.registered = false ∧ s.events = []) ∧
        (s.registered = true → s.events = []) ∧ s.events.length ≤ 1) →
      s'.events.length ≤ 1 := by
  intro l
  induction l with
  | nil =>
    intro s s' h hinv
    simp only [runReq, Option.some.injEq] at h
    subst h
    exact hinv.2.2
  | cons a rest ih =>
    intro s s' h hinv
    obtain ⟨hi1, hi2, hi3⟩ := hinv
    cases hstep : reqStep s a with
    | none => simp [runReq, hstep] at h
    | some s1 =>
      rw [runReq, hstep] at h
      refine ih s1 s' h ?_
      cases a with
      | doLogReq =>
        rw [reqStep] at hstep
        split at hstep
        · rename_i hpc
          injection hstep with hs1
          subst hs1
          refine ⟨?_, ?_, ?_⟩
          · intro hx
            simp at hx
          · intro _
            exact (hi1 hpc).2
          · exact hi3
        · exact Option.noConfusion hstep
      | sendOk =>
        rw [reqStep] at hstep
        split at hstep
        · injection hstep with hs1
          subst hs1
          refine ⟨?_, hi2, hi3⟩
          intro hx
          simp at hx
        · exact Option.noConfusion hstep
      | sendErr e =>
        rw [reqStep] at hstep
        split at hstep
        · injection hstep with hs1
          subst hs1
          refine ⟨?_, hi2, hi3⟩
          intro hx
          simp at hx
        · exact Option.noConfusion hstep
      | doCleanup e =>
        rw [reqStep] at hstep
        split at hstep
        · injection hstep with hs1
          subst hs1
          refine ⟨?_, ?_, hi3⟩
          · intro hx
            simp at hx
          · intro hx
            simp at hx
        · exact Option.noConfusion hstep
      | timerFire =>
        rw [reqStep] at hstep
        split at hstep
        · injection hstep with hs1
          subst hs1
          exact ⟨hi1, hi2, hi3⟩
        · exact Option.noConfusion hstep
      | doExpire =>
        rw [reqStep] at hstep
        split at hstep
        · injection hstep with hs1
          subst hs1
          refine ⟨?_, ?_, ?_⟩
          · intro hx
            exact ⟨rfl, by simp [(hi1 hx).1, (hi1 hx).2]⟩
          · intro hx
            simp at hx
          · by_cases hr : s.registered = true
            · simp [hr, hi2 hr]
            · simp only [hr, if_false]
              exact hi3
        · exact Option.noConfusion hstep
      | responseArrive =>
        rw [reqStep] at hstep
        split at hstep
        · rename_i hreg
          injection hstep with hs1
          subst hs1
          refine ⟨?_, ?_, ?_⟩
          · intro hx
            exact absurd (hi1 hx).1 (by simp [hreg])
          · intro hx
            simp at hx
          · simp [hi2 hreg]
        · exact Option.noConfusion hstep
      | shutdownDrain =>
        rw [reqStep] at hstep
        split at hstep
        · exact Option.noConfusion hstep
        · injection hstep with hs1
          subst hs1
          refine ⟨?_, ?_, ?_⟩
          · intro hx
            exact ⟨rfl, by simp [(hi1 hx).1, (hi1 hx).2]⟩
          · intro hx
            simp at hx
          · by_cases hr : s.registered = true
            · simp [hr, hi2 hr]
            · simp only [hr, if_false]
              exact hi3

end WsConn
